import Mathlib

/-!
Shallow embedding of the AML dashboard engine (src/app.js) for
verification of its natural-language specification.

Modelling conventions:
* JS numbers carrying monetary amounts and jitter are rationals (`ℚ`).
* Timestamps are integers (milliseconds, as in `Date.getTime()`).
* `Math.random()`-derived values are injected through a `RandEnv`
  record, so every function is a pure function of its inputs.
* JS arrays are Lean lists; `unshift` is cons, `push` appends,
  `slice(0, n)` is `List.take n`.
* The `Map` used for pattern counters is an association list with
  JS-`Map` semantics: setting an existing key updates it in place,
  setting a fresh key appends it.
-/

namespace AML

/-- JS truncating division toward zero, as used by the `%` operator. -/
def jsTrunc (q : ℚ) : Int := if 0 ≤ q then ⌊q⌋ else ⌈q⌉

/-- JS `a % b` (sign of the dividend, truncated quotient). -/
def jsMod (a b : ℚ) : ℚ := a - b * (jsTrunc (a / b))

/-- The high-risk jurisdiction list from the `AMLDashboard` constructor. -/
def highRiskCountries : List String :=
  ["North Korea", "Iran", "Afghanistan", "Myanmar", "Syria", "Somalia",
   "Yemen", "Libya"]

/-- The pattern catalog types from `this.amlPatterns` in the constructor. -/
def amlPatternTypes : List String :=
  ["Structuring", "Layering", "Smurfing", "Large Cash", "Geographic Risk",
   "Velocity", "Round Amount"]

/-- A transaction record, as built by `generateTransaction`.  The
`riskScore`, `riskLevel`, `patterns` and `riskFactors` fields start at
their defaults and are filled in by `analyzeTransaction`. -/
structure Txn where
  id : String
  timestamp : Int
  amount : ℚ
  currency : String
  paymentMethod : String
  senderName : String
  senderAccount : String
  receiverName : String
  receiverAccount : String
  senderLocation : String
  receiverLocation : String
  riskScore : Int := 0
  riskLevel : String := "Low"
  patterns : List String := []
  riskFactors : List String := []
  deriving DecidableEq, Repr

/-- An alert record, as built by `generateAlert`. -/
structure AlertRec where
  id : String
  timestamp : Int
  transactionId : String
  type : String
  icon : String
  priority : String
  description : String
  acknowledged : Bool
  deriving DecidableEq, Repr

/-- The mutable state of the `AMLDashboard` object (the store fields
only; UI and chart state is out of scope). -/
structure DashState where
  transactions : List Txn
  alerts : List AlertRec
  patterns : List (String × Nat)
  totalProcessed : Nat
  deriving DecidableEq, Repr

/-- `Map.get(k)` on the association-list model of a JS `Map`. -/
def mapGet (m : List (String × Nat)) (k : String) : Option Nat :=
  (m.find? (fun p => p.1 == k)).map (fun p => p.2)

/-- `Map.set(k, v)`: update in place when the key exists, append when
it is fresh (JS `Map` preserves insertion order). -/
def mapSet (m : List (String × Nat)) (k : String) (v : Nat) :
    List (String × Nat) :=
  if m.any (fun p => p.1 == k) then
    m.map (fun p => if p.1 == k then (k, v) else p)
  else
    m ++ [(k, v)]

/-- The state after `initializePatterns`: every catalog type at zero. -/
def initPatterns : List (String × Nat) := amlPatternTypes.map (fun t => (t, 0))

/-- The dashboard state right after construction and `initializePatterns`. -/
def dashInit : DashState :=
  { transactions := [], alerts := [], patterns := initPatterns,
    totalProcessed := 0 }

/-- Injected values for every `Math.random()` use of one processing
call (jitter, the two stochastic rules, alert-type and description
choice, and the fresh alert identifier/timestamp). -/
structure RandEnv where
  jitter : ℚ
  layering : Bool
  smurfing : Bool
  alertTypeIdx : Nat
  descIdx : Nat
  alertId : String
  alertTime : Int
  deriving Repr

/-- `checkVelocity`: counts ledger entries of the same sender account
whose age `now − t.timestamp` is under one hour (strict), and fires
when that count exceeds 5.  Note it queries `this.transactions`, the
ledger, which does not yet contain the transaction being analyzed. -/
def checkVelocity (ledger : List Txn) (tx : Txn) (now : Int) : Bool :=
  ((ledger.filter (fun t =>
    t.senderAccount == tx.senderAccount
      && now - t.timestamp < 3600000)).length) > 5

/-- Rule 1 of `analyzeTransaction`: amount > 100000. -/
def condLarge (tx : Txn) : Bool := tx.amount > 100000

/-- Rule 2: round amount — exact multiple of 1000 and amount > 5000. -/
def condRound (tx : Txn) : Bool := jsMod tx.amount 1000 == 0 && tx.amount > 5000

/-- Rule 3: structuring — 9000 ≤ amount < 10000. -/
def condStructuring (tx : Txn) : Bool := 9000 ≤ tx.amount && tx.amount < 10000

/-- Rule 4: geographic risk — a high-risk country name occurs in the
sender or receiver location string. -/
def condGeo (tx : Txn) : Bool :=
  highRiskCountries.any (fun c =>
    (tx.senderLocation.splitOn c).length > 1
      || (tx.receiverLocation.splitOn c).length > 1)

/-- Rule 5: large cash — payment method Cash Deposit and amount > 5000. -/
def condCash (tx : Txn) : Bool :=
  tx.paymentMethod == "Cash Deposit" && tx.amount > 5000

/-- Rule 6: cryptocurrency payment method. -/
def condCrypto (tx : Txn) : Bool := tx.paymentMethod == "Cryptocurrency"

/-- The additive score deltas of the nine rules of
`analyzeTransaction`, in source order. -/
def ruleScore (ledger : List Txn) (tx : Txn) (now : Int)
    (layering smurfing : Bool) : Int :=
  (if condLarge tx then 30 else 0)
    + (if condRound tx then 15 else 0)
    + (if condStructuring tx then 40 else 0)
    + (if condGeo tx then 25 else 0)
    + (if condCash tx then 20 else 0)
    + (if condCrypto tx then 15 else 0)
    + (if checkVelocity ledger tx now then 35 else 0)
    + (if layering then 50 else 0)
    + (if smurfing then 45 else 0)

/-- The risk-factor strings pushed by the rules, in source order. -/
def ruleFactors (ledger : List Txn) (tx : Txn) (now : Int)
    (layering smurfing : Bool) : List String :=
  (if condLarge tx then ["Large amount transaction"] else [])
    ++ (if condRound tx then ["Suspicious round amount"] else [])
    ++ (if condStructuring tx then ["Amount just under reporting threshold"] else [])
    ++ (if condGeo tx then ["High-risk jurisdiction involved"] else [])
    ++ (if condCash tx then ["Large cash transaction"] else [])
    ++ (if condCrypto tx then ["Cryptocurrency transaction"] else [])
    ++ (if checkVelocity ledger tx now then ["High transaction velocity detected"] else [])
    ++ (if layering then ["Complex layering pattern detected"] else [])
    ++ (if smurfing then ["Potential smurfing activity"] else [])

/-- The pattern tags pushed onto `transaction.patterns`, in source
order (rules 1 and 6 push no tag). -/
def rulePatterns (ledger : List Txn) (tx : Txn) (now : Int)
    (layering smurfing : Bool) : List String :=
  (if condRound tx then ["Round Amount"] else [])
    ++ (if condStructuring tx then ["Structuring"] else [])
    ++ (if condGeo tx then ["Geographic Risk"] else [])
    ++ (if condCash tx then ["Large Cash"] else [])
    ++ (if checkVelocity ledger tx now then ["Velocity"] else [])
    ++ (if layering then ["Layering"] else [])
    ++ (if smurfing then ["Smurfing"] else [])

/-- The final clamp of `analyzeTransaction`:
`Math.max(1, Math.min(100, Math.floor(sum + jitter)))`. -/
def clampScore (sum : Int) (jitter : ℚ) : Int :=
  max 1 (min 100 ⌊(sum : ℚ) + jitter⌋)

/-- The score-to-level breakpoints of `analyzeTransaction`. -/
def riskLevelOf (s : Int) : String :=
  if s ≥ 76 then "Critical"
  else if s ≥ 51 then "High"
  else if s ≥ 26 then "Medium"
  else "Low"

/-- The code's velocity count with the window generalized (the source
hard-codes 3600000 ms): entries of the account whose age is strictly
under the window. -/
def velocityCount (ledger : List Txn) (account : String) (now window : Int) :
    Nat :=
  (ledger.filter (fun t =>
    t.senderAccount == account && now - t.timestamp < window)).length

/-- Modelled from the spec (§4.1) for comparison with the code:
`countWithin` is said to count timestamps with
`now − windowDuration ≤ t ≤ now`, boundary included. -/
def specCountWithin (ledger : List Txn) (account : String) (now window : Int) :
    Nat :=
  (ledger.filter (fun t =>
    t.senderAccount == account
      && now - window ≤ t.timestamp && t.timestamp ≤ now)).length

/-- Modelled from the spec (§3) for comparison with the code: the
breakpoint buckets Low 1–25, Medium 26–50, High 51–75, Critical 76–100. -/
def specBucket (s : Int) : String :=
  if 1 ≤ s ∧ s ≤ 25 then "Low"
  else if 26 ≤ s ∧ s ≤ 50 then "Medium"
  else if 51 ≤ s ∧ s ≤ 75 then "High"
  else if 76 ≤ s ∧ s ≤ 100 then "Critical"
  else "OutOfRange"

/-- The fixed alert-type catalog of `generateAlert`. -/
structure AlertType where
  type : String
  icon : String
  priority : String
  deriving DecidableEq, Repr

/-- `alertTypes` from `generateAlert`. -/
def alertTypes : List AlertType :=
  [⟨"Suspicious Pattern", "⚠️", "high"⟩,
   ⟨"Threshold Exceeded", "📊", "medium"⟩,
   ⟨"Geographic Risk", "🌍", "medium"⟩,
   ⟨"Velocity Alert", "⚡", "high"⟩,
   ⟨"Customer Risk", "👤", "high"⟩]

/-- The last `n` characters of a string (JS `slice(-n)`). -/
def lastChars (s : String) (n : Nat) : String :=
  String.mk ((s.toList.reverse.take n).reverse)

/-- `generateAlertDescription`: one of five templates, chosen by the
injected random index.  JS locale number formatting is abstracted to
`toString`. -/
def generateAlertDescription (tx : Txn) (descIdx : Nat) : String :=
  let descriptions :=
    ["High-risk transaction detected: " ++ tx.currency ++ " "
       ++ toString tx.amount,
     "Suspicious pattern identified in transaction from "
       ++ tx.senderLocation,
     "Multiple risk factors detected in " ++ tx.paymentMethod
       ++ " transaction",
     "Velocity threshold exceeded for account "
       ++ lastChars tx.senderAccount 6,
     "Geographic risk alert: transaction involves high-risk jurisdiction"]
  descriptions.getD (descIdx % 5) ""

/-- The alert record built by `generateAlert` for a scored transaction. -/
def mkAlert (env : RandEnv) (tx : Txn) : AlertRec :=
  let alertType := alertTypes.getD (env.alertTypeIdx % 5)
    ⟨"Suspicious Pattern", "⚠️", "high"⟩
  { id := env.alertId, timestamp := env.alertTime, transactionId := tx.id,
    type := alertType.type, icon := alertType.icon,
    priority := alertType.priority,
    description := generateAlertDescription tx env.descIdx,
    acknowledged := false }

/-- `generateAlert`: unshift the new alert, then keep only the first
50 when the length exceeds 50. -/
def generateAlert (st : DashState) (tx : Txn) (env : RandEnv) : DashState :=
  let l := mkAlert env tx :: st.alerts
  { st with alerts := if l.length > 50 then l.take 50 else l }

/-- The pattern-count update loop at the end of `analyzeTransaction`:
`patterns.set(tag, (patterns.get(tag) || 0) + 1)` for each tag. -/
def incrementPatterns (m : List (String × Nat)) (tags : List String) :
    List (String × Nat) :=
  tags.foldl (fun acc tag => mapSet acc tag ((mapGet acc tag).getD 0 + 1)) m

/-- `analyzeTransaction`: evaluate the rules against the current
ledger, clamp the jittered score, set the derived fields, then (in
source order) conditionally generate an alert and bump the pattern
counters.  The transaction itself is not yet in the ledger here. -/
def analyzeTransaction (st : DashState) (tx : Txn) (now : Int)
    (env : RandEnv) : DashState × Txn :=
  let sum := ruleScore st.transactions tx now env.layering env.smurfing
  let rf := ruleFactors st.transactions tx now env.layering env.smurfing
  let pats := rulePatterns st.transactions tx now env.layering env.smurfing
  let score := clampScore sum env.jitter
  let tx2 := { tx with
               riskScore := score
               riskLevel := riskLevelOf score
               patterns := tx.patterns ++ pats
               riskFactors := rf }
  let st1 := if score ≥ 51 then generateAlert st tx2 env else st
  let st2 := { st1 with
               patterns := incrementPatterns st1.patterns tx2.patterns }
  (st2, tx2)

/-- `addTransaction`: unshift into the ledger, bump the processed
counter, and keep only the first 100 when the length exceeds 100. -/
def addTransaction (st : DashState) (tx : Txn) : DashState :=
  let l := tx :: st.transactions
  { st with
    transactions := if l.length > 100 then l.take 100 else l
    totalProcessed := st.totalProcessed + 1 }

/-- One tick of `startTransactionGeneration`: analyze the generated
transaction, then add it to the ledger. -/
def processTransaction (st : DashState) (tx : Txn) (now : Int)
    (env : RandEnv) : DashState × Txn :=
  let r := analyzeTransaction st tx now env
  (addTransaction r.1 r.2, r.2)

/-- The phases of one processing call, in the order the source
executes them. -/
inductive StepTag where
  | scoring
  | alerting
  | counting
  | inserting
  deriving DecidableEq, Repr

/-- The state observed after each phase of one processing call, in
execution order: scoring mutates no store, the conditional alert comes
next (inside `analyzeTransaction`), then the pattern counters, and the
ledger insertion happens last (in `addTransaction`). -/
def processSteps (st : DashState) (tx : Txn) (now : Int) (env : RandEnv) :
    List (StepTag × DashState) :=
  let sum := ruleScore st.transactions tx now env.layering env.smurfing
  let rf := ruleFactors st.transactions tx now env.layering env.smurfing
  let pats := rulePatterns st.transactions tx now env.layering env.smurfing
  let score := clampScore sum env.jitter
  let tx2 := { tx with
               riskScore := score
               riskLevel := riskLevelOf score
               patterns := tx.patterns ++ pats
               riskFactors := rf }
  let st1 := if score ≥ 51 then generateAlert st tx2 env else st
  let st2 := { st1 with
               patterns := incrementPatterns st1.patterns tx2.patterns }
  let st3 := addTransaction st2 tx2
  [(StepTag.scoring, st), (StepTag.alerting, st1),
   (StepTag.counting, st2), (StepTag.inserting, st3)]

/-- `acknowledgeAlert`'s effect on the alert list: `Array.find` locates
the first (most recent) alert whose `transactionId` matches, and its
`acknowledged` flag is set; nothing happens when none matches. -/
def ackFirst : List AlertRec → String → List AlertRec
  | [], _ => []
  | a :: rest, txId =>
    if a.transactionId == txId then { a with acknowledged := true } :: rest
    else a :: ackFirst rest txId

/-- `acknowledgeAlert` on the store state. -/
def acknowledgeAlert (st : DashState) (txId : String) : DashState :=
  { st with alerts := ackFirst st.alerts txId }

/-- One entry of the exported SAR document (`exportSAR`). -/
structure SAREntry where
  id : String
  timestamp : Int
  amount : ℚ
  currency : String
  riskScore : Int
  patterns : List String
  riskFactors : List String
  deriving DecidableEq, Repr

/-- The exported SAR document. -/
structure SARData where
  reportDate : Int
  totalTransactions : Nat
  transactions : List SAREntry
  deriving DecidableEq, Repr

/-- The per-transaction projection used by `exportSAR`. -/
def sarEntryOf (t : Txn) : SAREntry :=
  { id := t.id, timestamp := t.timestamp, amount := t.amount,
    currency := t.currency, riskScore := t.riskScore,
    patterns := t.patterns, riskFactors := t.riskFactors }

/-- `exportSAR`: the ledger restricted to High/Critical entries,
serialized with a report date and the count of included transactions. -/
def exportSAR (st : DashState) (now : Int) : SARData :=
  let highRiskTransactions := st.transactions.filter (fun t =>
    t.riskLevel == "High" || t.riskLevel == "Critical")
  { reportDate := now,
    totalTransactions := highRiskTransactions.length,
    transactions := highRiskTransactions.map sarEntryOf }

/-! Concrete fixtures used to evaluate the model on explicit inputs. -/

/-- A benign transaction (no rule fires): small non-round amount, wire
transfer, low-risk locations, sender account `ACC1`. -/
def plainTx (i : Nat) : Txn :=
  { id := "T" ++ toString i, timestamp := 0, amount := 100,
    currency := "USD", paymentMethod := "Wire Transfer",
    senderName := "John Smith", senderAccount := "ACC1",
    receiverName := "Jane Smith", receiverAccount := "ACC2",
    senderLocation := "Singapore", receiverLocation := "Singapore" }

/-- A fixed randomness environment: zero jitter, both stochastic rules
off, first alert type, last description template. -/
def env0 : RandEnv :=
  { jitter := 0, layering := false, smurfing := false, alertTypeIdx := 0,
    descIdx := 4, alertId := "ALT1", alertTime := 0 }

/-- The dashboard state after fully processing `plainTx 0 … plainTx (n−1)`
(all with timestamp 0, evaluated at `now = 0`). -/
def runN (n : Nat) : DashState :=
  ((List.range n).map plainTx).foldl
    (fun st tx => (processTransaction st tx 0 env0).1) dashInit

/-- A structuring transaction: amount 9000 fires the round-amount rule
(+15) and the structuring rule (+40), so its score is 55 ≥ 51 and an
alert is generated. -/
def structTx : Txn :=
  { id := "TS", timestamp := 0, amount := 9000,
    currency := "USD", paymentMethod := "Wire Transfer",
    senderName := "John Smith", senderAccount := "ACC9",
    receiverName := "Jane Smith", receiverAccount := "ACC2",
    senderLocation := "Singapore", receiverLocation := "Singapore" }

/-- A ledger entry whose timestamp sits exactly one window before the
query instant. -/
def boundaryTx : Txn :=
  { id := "TB", timestamp := 0, amount := 100,
    currency := "USD", paymentMethod := "Wire Transfer",
    senderName := "John Smith", senderAccount := "A",
    receiverName := "Jane Smith", receiverAccount := "ACC2",
    senderLocation := "Singapore", receiverLocation := "Singapore" }

/-- An already-acknowledged alert for transaction `T` (the more recent
one in `ackState`). -/
def ackedAlert : AlertRec :=
  { id := "ALTA", timestamp := 2, transactionId := "T",
    type := "Suspicious Pattern", icon := "⚠️", priority := "high",
    description := "d1", acknowledged := true }

/-- An unacknowledged alert for transaction `T` (the older one in
`ackState`). -/
def unackedAlert : AlertRec :=
  { id := "ALTB", timestamp := 1, transactionId := "T",
    type := "Velocity Alert", icon := "⚡", priority := "high",
    description := "d2", acknowledged := false }

/-- A state whose most recent alert for `T` is acknowledged while an
older alert for `T` is not. -/
def ackState : DashState :=
  { dashInit with alerts := [ackedAlert, unackedAlert] }

/-- An alert for a transaction id other than `T`, used as a prefix
element in the acknowledge witness. -/
def otherAlert : AlertRec :=
  { id := "ALTC", timestamp := 3, transactionId := "S",
    type := "Customer Risk", icon := "👤", priority := "high",
    description := "d3", acknowledged := false }

/-- A ledger entry already assessed as High risk, for the export
fixture. -/
def highTx : Txn :=
  { id := "TH", timestamp := 0, amount := 9000,
    currency := "USD", paymentMethod := "Wire Transfer",
    senderName := "John Smith", senderAccount := "ACC9",
    receiverName := "Jane Smith", receiverAccount := "ACC2",
    senderLocation := "Singapore", receiverLocation := "Singapore",
    riskScore := 55, riskLevel := "High",
    patterns := ["Round Amount", "Structuring"],
    riskFactors := ["Suspicious round amount",
                    "Amount just under reporting threshold"] }

/-- A state holding one Low and one High ledger entry, for the export
witness. -/
def exportState : DashState :=
  { dashInit with transactions := [plainTx 0, highTx] }

/-! ## Helper lemmas -/

/-- Membership in a conditional singleton list. -/
theorem mem_ite_singleton {α : Type} {c : Prop} [Decidable c] {a b : α} :
    a ∈ (if c then [b] else []) ↔ c ∧ a = b := by
  split <;> simp_all

/-- The clamp of `analyzeTransaction` always lands in `[1, 100]`. -/
theorem clampScore_bounds (s : Int) (j : ℚ) :
    1 ≤ clampScore s j ∧ clampScore s j ≤ 100 := by
  unfold clampScore
  omega

/-- Inside `[1, 100]`, the code's level breakpoints agree with the
spec's bucket table. -/
theorem riskLevelOf_eq_specBucket (s : Int) (h1 : 1 ≤ s) (h2 : s ≤ 100) :
    riskLevelOf s = specBucket s := by
  unfold riskLevelOf specBucket
  split_ifs <;> first | rfl | omega

/-- The assessed transaction's score, unfolded. -/
theorem analyzeTransaction_riskScore (st : DashState) (tx : Txn) (now : Int)
    (env : RandEnv) :
    (analyzeTransaction st tx now env).2.riskScore
      = clampScore (ruleScore st.transactions tx now env.layering env.smurfing)
          env.jitter := rfl

/-- The assessed transaction's level, unfolded. -/
theorem analyzeTransaction_riskLevel (st : DashState) (tx : Txn) (now : Int)
    (env : RandEnv) :
    (analyzeTransaction st tx now env).2.riskLevel
      = riskLevelOf ((analyzeTransaction st tx now env).2.riskScore) := rfl

/-! ## Claims -/

/-- C1: for every processed transaction the final risk score is an
integer in `[1, 100]` (rule deltas plus jitter, floored and clamped),
and the risk level is exactly the spec's breakpoint bucket containing
that score, with the boundary cases 25→Low, 26→Medium, 50→Medium,
51→High, 75→High, 76→Critical. -/
theorem score_in_range_level_is_bucket (st : DashState) (tx : Txn)
    (now : Int) (env : RandEnv) (hj1 : -5 ≤ env.jitter)
    (hj2 : env.jitter < 5) :
    (1 ≤ (analyzeTransaction st tx now env).2.riskScore
        ∧ (analyzeTransaction st tx now env).2.riskScore ≤ 100)
    ∧ (analyzeTransaction st tx now env).2.riskLevel
        = specBucket (analyzeTransaction st tx now env).2.riskScore
    ∧ riskLevelOf 25 = "Low" ∧ riskLevelOf 26 = "Medium"
    ∧ riskLevelOf 50 = "Medium" ∧ riskLevelOf 51 = "High"
    ∧ riskLevelOf 75 = "High" ∧ riskLevelOf 76 = "Critical" := by
  have hb := clampScore_bounds
    (ruleScore st.transactions tx now env.layering env.smurfing) env.jitter
  rw [analyzeTransaction_riskScore] at *
  refine ⟨hb, ?_, rfl, rfl, rfl, rfl, rfl, rfl⟩
  rw [analyzeTransaction_riskLevel, analyzeTransaction_riskScore]
  exact riskLevelOf_eq_specBucket _ hb.1 hb.2

/-- Witness for C1 at a concrete benign transaction and zero jitter. -/
theorem score_in_range_level_is_bucket_witness :
    ((1 ≤ (analyzeTransaction dashInit (plainTx 0) 0 env0).2.riskScore
        ∧ (analyzeTransaction dashInit (plainTx 0) 0 env0).2.riskScore ≤ 100)
    ∧ (analyzeTransaction dashInit (plainTx 0) 0 env0).2.riskLevel
        = specBucket (analyzeTransaction dashInit (plainTx 0) 0 env0).2.riskScore
    ∧ riskLevelOf 25 = "Low" ∧ riskLevelOf 26 = "Medium"
    ∧ riskLevelOf 50 = "Medium" ∧ riskLevelOf 51 = "High"
    ∧ riskLevelOf 75 = "High" ∧ riskLevelOf 76 = "Critical") :=
  score_in_range_level_is_bucket dashInit (plainTx 0) 0 env0
    (by norm_num [env0]) (by norm_num [env0])

set_option maxRecDepth 100000 in
/-- C2 counterexample: the 6th within-window transaction of a fixed
sender account does NOT match the Velocity rule (its pattern and
risk-factor lists are empty, so no +35 was added), because the scoring
engine queries the ledger before the transaction is inserted; only the
7th transaction (which sees 6 prior in-window entries) fires it.  The
velocity count seen by the 6th transaction is 5, not 6. -/
theorem sixth_transaction_sees_no_velocity :
    (analyzeTransaction (runN 5) (plainTx 5) 0 env0).2.patterns = []
    ∧ (analyzeTransaction (runN 5) (plainTx 5) 0 env0).2.riskFactors = []
    ∧ velocityCount (runN 5).transactions "ACC1" 0 3600000 = 5
    ∧ (analyzeTransaction (runN 6) (plainTx 6) 0 env0).2.patterns
        = ["Velocity"] := by
  with_unfolding_all decide

/-- C2 (amended): the scoring engine does NOT record the transaction
into the velocity store before querying; it queries the ledger as it
was before insertion, so a transaction never counts toward its own
window.  The Velocity rule fires exactly when strictly more than 5
previously processed transactions of the same sender account lie in
the one-hour window — hence, for a fixed account with all submissions
in-window, the 7th (and every later) transaction gains the Velocity
pattern and +35, while the 6th does not. -/
theorem velocity_counts_prior_transactions_only (st : DashState) (tx : Txn)
    (now : Int) (env : RandEnv) (hp : tx.patterns = []) :
    ("Velocity" ∈ (analyzeTransaction st tx now env).2.patterns
      ↔ 5 < velocityCount st.transactions tx.senderAccount now 3600000) := by
  have h : (analyzeTransaction st tx now env).2.patterns
      = tx.patterns
          ++ rulePatterns st.transactions tx now env.layering env.smurfing :=
    rfl
  rw [h, hp, List.nil_append]
  unfold rulePatterns
  simp only [List.mem_append, mem_ite_singleton]
  simp [checkVelocity, velocityCount]

/-- Witness for C2 (amended) at the 7th transaction of the fixed
account. -/
theorem velocity_counts_prior_transactions_only_witness :
    ((plainTx 6).patterns = [])
    ∧ ("Velocity" ∈ (analyzeTransaction (runN 6) (plainTx 6) 0 env0).2.patterns
        ↔ 5 < velocityCount (runN 6).transactions (plainTx 6).senderAccount
            0 3600000) :=
  ⟨rfl, velocity_counts_prior_transactions_only (runN 6) (plainTx 6) 0 env0 rfl⟩

/-- C3 counterexample: a recorded timestamp exactly at the window
boundary (`t = now − W`, here `t = 0`, `now = W = 3600000`) is NOT
counted by the code (strict `now − t < W`), while the claim's
characterization `now − W ≤ t ≤ now` counts it. -/
theorem boundary_timestamp_not_counted :
    velocityCount [boundaryTx] "A" 3600000 3600000 = 0
    ∧ specCountWithin [boundaryTx] "A" 3600000 3600000 = 1 := by
  decide

/-- C3 (amended): the velocity count returns exactly the number of
recorded timestamps `t` of the account satisfying `now − t < W`,
equivalently `now − W < t`: the lower boundary is strict (a timestamp
exactly at `now − W` is excluded) and there is no upper bound at `now`
(timestamps after `now` are counted). -/
theorem velocity_window_strict_boundary (ledger : List Txn)
    (account : String) (now window : Int) :
    velocityCount ledger account now window
      = (ledger.filter (fun t =>
          t.senderAccount == account
            && now - window < t.timestamp)).length := by
  unfold velocityCount
  congr 1
  apply List.filter_congr
  intro t _
  have hd : (decide (now - t.timestamp < window))
      = (decide (now - window < t.timestamp)) :=
    decide_eq_decide.mpr (by omega)
  rw [hd]

set_option maxRecDepth 100000 in
/-- C4 counterexample: processing the high-risk transaction `TS`
(score 55) creates its alert at the second phase of the trace, while
the ledger is still empty; the ledger insertion is the LAST phase, not
the second.  So at the moment an alert referencing `TS` exists, `TS`
is not present in the ledger, refuting the claimed order
scoring→ledger→patterns→alert and its consequence. -/
theorem alert_created_before_ledger_insert :
    (processSteps dashInit structTx 0 env0).map
        (fun p => (p.1, p.2.transactions.map Txn.id,
                   p.2.alerts.map (fun a => a.transactionId)))
      = [(StepTag.scoring, [], []),
         (StepTag.alerting, [], ["TS"]),
         (StepTag.counting, [], ["TS"]),
         (StepTag.inserting, ["TS"], ["TS"])] := by
  with_unfolding_all decide

/-- C4 (amended): the store updates of one processing call happen in
the fixed order (1) scoring, (2) conditional alert creation, (3)
pattern-counter increments, (4) ledger insertion.  Consequently, at
the moment an alert is created the ledger is still in its pre-call
state — the triggering transaction is NOT yet present; it becomes
visible at the head of the ledger only once the call completes. -/
theorem process_order_alert_then_insert (st : DashState) (tx : Txn)
    (now : Int) (env : RandEnv) :
    (processSteps st tx now env).map Prod.fst
        = [StepTag.scoring, StepTag.alerting, StepTag.counting,
           StepTag.inserting]
    ∧ ((processSteps st tx now env).get? 1).map
        (fun p => p.2.transactions) = some st.transactions
    ∧ ((processSteps st tx now env).get? 3).map Prod.snd
        = some (processTransaction st tx now env).1
    ∧ (processTransaction st tx now env).1.transactions.head?
        = some (processTransaction st tx now env).2 := by
  refine ⟨rfl, ?_, rfl, ?_⟩
  · simp only [processSteps, List.get?]
    split <;> rfl
  · show (addTransaction _ _).transactions.head? = _
    simp only [addTransaction]
    split <;> rfl

/-- Acknowledging twice is the same as acknowledging once. -/
theorem ackFirst_idem (l : List AlertRec) (txId : String) :
    ackFirst (ackFirst l txId) txId = ackFirst l txId := by
  induction l with
  | nil => rfl
  | cons a rest ih =>
    by_cases h : a.transactionId == txId
    · simp [ackFirst, h]
    · simp [ackFirst, h, ih]

/-- C5 counterexample: in a state whose most recent alert for
transaction `T` is already acknowledged while an older alert for `T`
is not, the acknowledge operation changes no state at all — it does
NOT set `acknowledged = true` on the most recent matching
unacknowledged alert (the older one, at index 1, stays
unacknowledged). -/
theorem acknowledge_skips_older_unacknowledged :
    acknowledgeAlert ackState "T" = ackState
    ∧ (ackState.alerts.get? 1).map (fun a => a.acknowledged) = some false
    ∧ ((acknowledgeAlert ackState "T").alerts.get? 1).map
        (fun a => a.acknowledged) = some false := by
  decide

/-- C5 (amended): the acknowledge operation sets `acknowledged = true`
on the most recent alert matching the transaction id REGARDLESS of its
current acknowledged state (so it is a state no-op when that alert is
already acknowledged, even if an older matching alert is still
unacknowledged); when no alert matches it is a no-op; the operation is
total and idempotent, never raising an error. -/
theorem acknowledge_first_match_semantics :
    (∀ (l : List AlertRec) (txId : String),
        (∀ a ∈ l, a.transactionId ≠ txId) → ackFirst l txId = l)
    ∧ (∀ (pre : List AlertRec) (a : AlertRec) (post : List AlertRec)
          (txId : String),
        (∀ b ∈ pre, b.transactionId ≠ txId) → a.transactionId = txId →
          ackFirst (pre ++ a :: post) txId
            = pre ++ { a with acknowledged := true } :: post)
    ∧ (∀ (st : DashState) (txId : String),
        acknowledgeAlert (acknowledgeAlert st txId) txId
          = acknowledgeAlert st txId) := by
  refine ⟨?_, ?_, ?_⟩
  · intro l txId h
    induction l with
    | nil => rfl
    | cons a rest ih =>
      have ha : (a.transactionId == txId) = false := by
        simpa using h a (List.mem_cons_self a rest)
      simp [ackFirst, ha]
      exact ih (fun b hb => h b (List.mem_cons_of_mem a hb))
  · intro pre a post txId hpre ha
    induction pre with
    | nil => simp [ackFirst, ha]
    | cons b rest ih =>
      have hb : (b.transactionId == txId) = false := by
        simpa using hpre b (List.mem_cons_self b rest)
      simp only [List.cons_append, ackFirst, hb, Bool.false_eq_true,
        if_false, List.cons.injEq, true_and]
      exact ih (fun c hc => hpre c (List.mem_cons_of_mem b hc))
  · intro st txId
    show ({ st with alerts := ackFirst (ackFirst st.alerts txId) txId }
        : DashState) = _
    rw [ackFirst_idem]
    rfl

/-- Witness for C5 (amended), acknowledging `T` past a non-matching
more recent alert. -/
theorem acknowledge_first_match_semantics_witness :
    (∀ b ∈ [otherAlert], b.transactionId ≠ "T")
    ∧ ackFirst ([otherAlert] ++ unackedAlert :: []) "T"
        = [otherAlert] ++ { unackedAlert with acknowledged := true } :: [] :=
  ⟨by decide,
   acknowledge_first_match_semantics.2.1 [otherAlert] unackedAlert [] "T"
     (by decide) rfl⟩

/-- `mapGet` on an empty map. -/
theorem mapGet_nil (k : String) : mapGet [] k = none := rfl

/-- One-step unfolding of `mapGet`. -/
theorem mapGet_cons (p : String × Nat) (rest : List (String × Nat))
    (k : String) :
    mapGet (p :: rest) k = if p.1 == k then some p.2 else mapGet rest k := by
  unfold mapGet
  rw [List.find?_cons]
  cases hb : (p.1 == k)
  · simp [hb]
  · simp [hb]

/-- Updating the entries keyed `k` does not disturb lookups of other
keys. -/
theorem mapGet_update_other (m : List (String × Nat)) (k k2 : String)
    (v : Nat) (h : k2 ≠ k) :
    mapGet (m.map (fun p => if p.1 == k then (k, v) else p)) k2
      = mapGet m k2 := by
  induction m with
  | nil => rfl
  | cons p rest ih =>
    simp only [List.map_cons]
    by_cases hp : (p.1 == k) = true
    · have hpk : p.1 = k := by simpa using hp
      rw [if_pos hp, mapGet_cons, mapGet_cons]
      have h1 : ((k, v).1 == k2) = false := by simpa using Ne.symm h
      have h2 : (p.1 == k2) = false := by rw [hpk]; simpa using Ne.symm h
      rw [h1, h2]
      simpa using ih
    · rw [if_neg hp, mapGet_cons, mapGet_cons]
      by_cases hq : (p.1 == k2) = true
      · rw [if_pos hq, if_pos hq]
      · rw [if_neg hq, if_neg hq]
        exact ih

/-- When the key is present, the in-place update makes lookups of `k`
return the new value. -/
theorem mapGet_update_self (m : List (String × Nat)) (k : String) (v : Nat)
    (h : m.any (fun p => p.1 == k) = true) :
    mapGet (m.map (fun p => if p.1 == k then (k, v) else p)) k = some v := by
  induction m with
  | nil => simp at h
  | cons p rest ih =>
    simp only [List.map_cons]
    by_cases hp : (p.1 == k) = true
    · rw [if_pos hp, mapGet_cons]
      simp
    · rw [if_neg hp, mapGet_cons, if_neg hp]
      have hrest : rest.any (fun p => p.1 == k) = true := by
        simp only [List.any_cons, hp, Bool.false_or] at h
        exact h
      exact ih hrest

/-- Appending a binding for a key absent from the map: the new key
reads back the value, other keys are unchanged. -/
theorem mapGet_append_fresh (m : List (String × Nat)) (k k2 : String)
    (v : Nat) (hm : ∀ p ∈ m, (p.1 == k) = false) :
    mapGet (m ++ [(k, v)]) k2 = if k2 = k then some v else mapGet m k2 := by
  induction m with
  | nil =>
    rw [List.nil_append, mapGet_cons]
    by_cases hk : k2 = k
    · subst hk
      simp
    · have hf : ((k, v).1 == k2) = false := by simpa using Ne.symm hk
      rw [hf]
      simp [hk, mapGet_nil]
  | cons p rest ih =>
    rw [List.cons_append, mapGet_cons, mapGet_cons]
    by_cases hq : (p.1 == k2) = true
    · have hpk : (p.1 == k) = false := hm p (List.mem_cons_self p rest)
      have hk : k2 ≠ k := by
        intro he
        subst he
        have hpe : p.1 = k2 := by simpa using hq
        rw [hpe] at hpk
        simp at hpk
      rw [if_pos hq, if_neg hk, if_pos hq]
    · simp only [if_neg hq]
      exact ih (fun q hqm => hm q (List.mem_cons_of_mem p hqm))

/-- Lookup after `mapSet`: the written key reads back the written
value, all other keys are untouched — also when the key was absent and
a fresh counter is appended. -/
theorem mapGet_mapSet (m : List (String × Nat)) (k k2 : String) (v : Nat) :
    mapGet (mapSet m k v) k2 = if k2 = k then some v else mapGet m k2 := by
  unfold mapSet
  by_cases hany : m.any (fun p => p.1 == k) = true
  · rw [if_pos hany]
    by_cases hk : k2 = k
    · subst hk
      rw [if_pos rfl]
      exact mapGet_update_self m k2 v hany
    · rw [if_neg hk]
      exact mapGet_update_other m k k2 v hk
  · rw [if_neg hany]
    have hall : ∀ p ∈ m, (p.1 == k) = false := by
      intro p hp
      cases hb : (p.1 == k) with
      | false => rfl
      | true => exact absurd (List.any_eq_true.mpr ⟨p, hp, hb⟩) hany
    exact mapGet_append_fresh m k k2 v hall

set_option maxRecDepth 10000 in
/-- C6 counterexample: incrementing the unknown tag `Bogus` (not in
the closed catalog) is NOT rejected and raises no error — the code
silently creates a fresh counter for it and increments it to 1,
appending it to the pattern map. -/
theorem unknown_tag_counter_created :
    incrementPatterns initPatterns ["Bogus"] = initPatterns ++ [("Bogus", 1)]
    ∧ mapGet (incrementPatterns initPatterns ["Bogus"]) "Bogus" = some 1 := by
  decide

/-- C6 (amended): the increment operation adds one to the counter of
each named tag, and an unknown tag is NOT rejected: instead of failing
with a ValidationError, a counter for it is created (from the default
0) and incremented, leaving every other counter unchanged. -/
theorem increment_total_never_rejects (m : List (String × Nat))
    (tag : String) :
    mapGet (incrementPatterns m [tag]) tag
        = some ((mapGet m tag).getD 0 + 1)
    ∧ (∀ (k : String), k ≠ tag →
        mapGet (incrementPatterns m [tag]) k = mapGet m k) := by
  have h : incrementPatterns m [tag]
      = mapSet m tag ((mapGet m tag).getD 0 + 1) := rfl
  rw [h]
  constructor
  · rw [mapGet_mapSet, if_pos rfl]
  · intro k hk
    rw [mapGet_mapSet, if_neg hk]

/-- Witness for C6 (amended) at the unknown tag `Bogus` over the
initial catalog map. -/
theorem increment_total_never_rejects_witness :
    (mapGet (incrementPatterns initPatterns ["Bogus"]) "Bogus"
        = some ((mapGet initPatterns "Bogus").getD 0 + 1))
    ∧ ("Velocity" ≠ "Bogus")
    ∧ (mapGet (incrementPatterns initPatterns ["Bogus"]) "Velocity"
        = mapGet initPatterns "Velocity") :=
  ⟨(increment_total_never_rejects initPatterns "Bogus").1,
   by decide,
   (increment_total_never_rejects initPatterns "Bogus").2 "Velocity"
     (by decide)⟩

/-- Truncating after appending an already-truncated list is the same
as truncating the full append. -/
theorem take_append_take {α : Type} (a b : List α) (m n : Nat) (h : n ≤ m) :
    (a ++ b.take m).take n = (a ++ b).take n := by
  induction a generalizing n with
  | nil =>
    simp only [List.nil_append, List.take_take]
    rw [Nat.min_eq_left h]
  | cons x xs ih =>
    cases n with
    | zero => rfl
    | succ n =>
      simp only [List.cons_append, List.take_succ_cons]
      rw [ih n (Nat.le_trans (Nat.le_succ n) h)]

/-- `addTransaction` is exactly prepend-then-truncate-to-100 on the
ledger. -/
theorem addTransaction_take (st : DashState) (tx : Txn) :
    (addTransaction st tx).transactions = (tx :: st.transactions).take 100 := by
  show (if (tx :: st.transactions).length > 100
      then (tx :: st.transactions).take 100 else tx :: st.transactions)
    = (tx :: st.transactions).take 100
  split
  · rfl
  next h => rw [List.take_of_length_le (by omega)]

/-- Folding insertions over a within-bound start state. -/
theorem foldl_addTransaction (txs : List Txn) (st : DashState)
    (h : st.transactions.length ≤ 100) :
    (txs.foldl addTransaction st).transactions
      = (txs.reverse ++ st.transactions).take 100 := by
  induction txs generalizing st with
  | nil =>
    simp only [List.foldl_nil, List.reverse_nil, List.nil_append]
    rw [List.take_of_length_le h]
  | cons t ts ih =>
    rw [List.foldl_cons]
    have hlen : (addTransaction st t).transactions.length ≤ 100 := by
      rw [addTransaction_take]
      simp [List.length_take]
    rw [ih (addTransaction st t) hlen, addTransaction_take]
    rw [take_append_take _ _ 100 100 (Nat.le_refl 100)]
    simp [List.reverse_cons, List.append_assoc]

/-- C7: the ledger is a most-recent-first sequence capped at 100 —
every insertion prepends (then truncates to 100), the bound holds
after every insertion, and inserting 101 transactions into the fresh
dashboard leaves exactly the last 100 in most-recent-first order, the
oldest (first-inserted) evicted. -/
theorem ledger_capped_most_recent_first :
    (∀ (st : DashState) (tx : Txn),
        (addTransaction st tx).transactions
          = (tx :: st.transactions).take 100)
    ∧ (∀ (st : DashState) (tx : Txn),
        (addTransaction st tx).transactions.length ≤ 100)
    ∧ (∀ (tx0 : Txn) (rest : List Txn), rest.length = 100 →
        ((tx0 :: rest).foldl addTransaction dashInit).transactions
            = rest.reverse
        ∧ ((tx0 :: rest).foldl addTransaction dashInit).transactions.length
            = 100) := by
  refine ⟨addTransaction_take, ?_, ?_⟩
  · intro st tx
    rw [addTransaction_take]
    simp [List.length_take]
  · intro tx0 rest h
    have h0 : dashInit.transactions.length ≤ 100 := by simp [dashInit]
    have hrev : rest.reverse.length = 100 := by simp [h]
    have htr : ((tx0 :: rest).foldl addTransaction dashInit).transactions
        = rest.reverse := by
      rw [foldl_addTransaction _ _ h0]
      show ((tx0 :: rest).reverse ++ []).take 100 = rest.reverse
      rw [List.append_nil, List.reverse_cons]
      exact List.take_left' hrev
    exact ⟨htr, by rw [htr]; exact hrev⟩

/-- Witness for C7: 101 concrete insertions leave the last 100,
oldest evicted. -/
theorem ledger_capped_most_recent_first_witness :
    (((List.range 100).map plainTx).length = 100)
    ∧ (((plainTx 100 :: (List.range 100).map plainTx).foldl addTransaction
          dashInit).transactions
        = ((List.range 100).map plainTx).reverse
      ∧ ((plainTx 100 :: (List.range 100).map plainTx).foldl addTransaction
          dashInit).transactions.length = 100) :=
  ⟨by simp, ledger_capped_most_recent_first.2.2 (plainTx 100)
    ((List.range 100).map plainTx) (by simp)⟩

/-- `generateAlert` is exactly prepend-then-truncate-to-50 on the
alert store. -/
theorem generateAlert_take (st : DashState) (tx : Txn) (env : RandEnv) :
    (generateAlert st tx env).alerts = (mkAlert env tx :: st.alerts).take 50 := by
  show (if (mkAlert env tx :: st.alerts).length > 50
      then (mkAlert env tx :: st.alerts).take 50
      else mkAlert env tx :: st.alerts)
    = (mkAlert env tx :: st.alerts).take 50
  split
  · rfl
  next h => rw [List.take_of_length_le (by omega)]

/-- Folding alert generation over a within-bound start state. -/
theorem foldl_generateAlert (ps : List (Txn × RandEnv)) (st : DashState)
    (h : st.alerts.length ≤ 50) :
    ((ps.foldl (fun s p => generateAlert s p.1 p.2) st).alerts)
      = ((ps.map (fun p => mkAlert p.2 p.1)).reverse ++ st.alerts).take 50 := by
  induction ps generalizing st with
  | nil =>
    simp only [List.foldl_nil, List.map_nil, List.reverse_nil,
      List.nil_append]
    rw [List.take_of_length_le h]
  | cons q qs ih =>
    rw [List.foldl_cons]
    have hlen : (generateAlert st q.1 q.2).alerts.length ≤ 50 := by
      rw [generateAlert_take]
      simp [List.length_take]
    rw [ih (generateAlert st q.1 q.2) hlen, generateAlert_take]
    rw [take_append_take _ _ 50 50 (Nat.le_refl 50)]
    simp [List.reverse_cons, List.append_assoc]

/-- C8: the alert store is a most-recent-first sequence capped at 50 —
each new alert is inserted at the front (then truncated to 50), the
bound holds after every insertion, and raising 51 alerts on the fresh
dashboard leaves exactly the last 50, the oldest evicted. -/
theorem alerts_capped_most_recent_first :
    (∀ (st : DashState) (tx : Txn) (env : RandEnv),
        (generateAlert st tx env).alerts
          = (mkAlert env tx :: st.alerts).take 50)
    ∧ (∀ (st : DashState) (tx : Txn) (env : RandEnv),
        (generateAlert st tx env).alerts.length ≤ 50)
    ∧ (∀ (p0 : Txn × RandEnv) (rest : List (Txn × RandEnv)),
        rest.length = 50 →
        ((p0 :: rest).foldl (fun s p => generateAlert s p.1 p.2)
            dashInit).alerts
            = (rest.map (fun p => mkAlert p.2 p.1)).reverse
        ∧ ((p0 :: rest).foldl (fun s p => generateAlert s p.1 p.2)
            dashInit).alerts.length = 50) := by
  refine ⟨generateAlert_take, ?_, ?_⟩
  · intro st tx env
    rw [generateAlert_take]
    simp [List.length_take]
  · intro p0 rest h
    have h0 : dashInit.alerts.length ≤ 50 := by simp [dashInit]
    have hrev : (rest.map (fun p => mkAlert p.2 p.1)).reverse.length = 50 := by
      simp [h]
    have htr : ((p0 :: rest).foldl (fun s p => generateAlert s p.1 p.2)
        dashInit).alerts = (rest.map (fun p => mkAlert p.2 p.1)).reverse := by
      rw [foldl_generateAlert _ _ h0]
      show (((p0 :: rest).map
            (fun p : Txn × RandEnv => mkAlert p.2 p.1)).reverse ++ []).take 50
          = (rest.map (fun p : Txn × RandEnv => mkAlert p.2 p.1)).reverse
      rw [List.append_nil, List.map_cons, List.reverse_cons]
      exact List.take_left' hrev
    exact ⟨htr, by rw [htr]; exact hrev⟩

/-- Witness for C8: 51 concrete alert insertions leave the last 50,
oldest evicted. -/
theorem alerts_capped_most_recent_first_witness :
    (((List.range 50).map (fun i => (plainTx i, env0))).length = 50)
    ∧ ((((plainTx 50, env0) ::
          (List.range 50).map (fun i => (plainTx i, env0))).foldl
            (fun s p => generateAlert s p.1 p.2) dashInit).alerts
        = (((List.range 50).map (fun i => (plainTx i, env0))).map
            (fun p => mkAlert p.2 p.1)).reverse
      ∧ (((plainTx 50, env0) ::
          (List.range 50).map (fun i => (plainTx i, env0))).foldl
            (fun s p => generateAlert s p.1 p.2) dashInit).alerts.length
          = 50) :=
  ⟨by simp, alerts_capped_most_recent_first.2.2 (plainTx 50, env0)
    ((List.range 50).map (fun i => (plainTx i, env0))) (by simp)⟩

/-- C9: the export report carries the generation timestamp, contains
exactly the ledger entries assessed High or Critical (projected to the
`SAREntry` fields id, timestamp, amount, currency, riskScore,
patterns, riskFactors by `sarEntryOf`), and its transaction count
equals the size of that filtered set. -/
theorem exportSAR_high_critical_only (st : DashState) (now : Int) :
    (exportSAR st now).reportDate = now
    ∧ (exportSAR st now).totalTransactions
        = (exportSAR st now).transactions.length
    ∧ (exportSAR st now).totalTransactions
        = st.transactions.countP (fun t =>
            t.riskLevel == "High" || t.riskLevel == "Critical")
    ∧ (exportSAR st now).transactions
        = (st.transactions.filter (fun t =>
            t.riskLevel == "High" || t.riskLevel == "Critical")).map
              sarEntryOf
    ∧ (∀ e ∈ (exportSAR st now).transactions,
        ∃ t ∈ st.transactions,
          (t.riskLevel = "High" ∨ t.riskLevel = "Critical")
            ∧ e = sarEntryOf t) := by
  refine ⟨rfl, ?_, ?_, rfl, ?_⟩
  · show (st.transactions.filter (fun t =>
        t.riskLevel == "High" || t.riskLevel == "Critical")).length
      = ((st.transactions.filter (fun t =>
        t.riskLevel == "High" || t.riskLevel == "Critical")).map
          sarEntryOf).length
    rw [List.length_map]
  · show (st.transactions.filter (fun t =>
        t.riskLevel == "High" || t.riskLevel == "Critical")).length = _
    rw [List.countP_eq_length_filter]
  · intro e he
    have he2 : e ∈ (st.transactions.filter (fun t =>
        t.riskLevel == "High" || t.riskLevel == "Critical")).map
          sarEntryOf := he
    rw [List.mem_map] at he2
    obtain ⟨t, htf, rfl⟩ := he2
    rw [List.mem_filter] at htf
    obtain ⟨ht, hcond⟩ := htf
    refine ⟨t, ht, ?_, rfl⟩
    simpa using hcond

/-- Witness for C9 on a concrete two-entry ledger (one Low, one High). -/
theorem exportSAR_high_critical_only_witness :
    (exportSAR exportState 42).reportDate = 42
    ∧ (exportSAR exportState 42).totalTransactions
        = (exportSAR exportState 42).transactions.length
    ∧ (exportSAR exportState 42).totalTransactions
        = exportState.transactions.countP (fun t =>
            t.riskLevel == "High" || t.riskLevel == "Critical")
    ∧ (exportSAR exportState 42).transactions
        = (exportState.transactions.filter (fun t =>
            t.riskLevel == "High" || t.riskLevel == "Critical")).map
              sarEntryOf
    ∧ (∀ e ∈ (exportSAR exportState 42).transactions,
        ∃ t ∈ exportState.transactions,
          (t.riskLevel = "High" ∨ t.riskLevel = "Critical")
            ∧ e = sarEntryOf t) :=
  exportSAR_high_critical_only exportState 42

/-- When the clamped score is below 51 no alert is generated: the
alert store is untouched by the call. -/
theorem analyzeTransaction_alerts_of_low (st : DashState) (tx : Txn)
    (now : Int) (env : RandEnv)
    (h : clampScore (ruleScore st.transactions tx now env.layering
        env.smurfing) env.jitter < 51) :
    (analyzeTransaction st tx now env).1.alerts = st.alerts := by
  have hn : ¬ (clampScore (ruleScore st.transactions tx now env.layering
      env.smurfing) env.jitter ≥ 51) := by omega
  simp only [analyzeTransaction]
  rw [if_neg hn]

/-- C10: when no detection rule fires (the computed risk-factor and
pattern lists are empty), the rule-delta sum is 0, so for every jitter
in `[-5, 5)` the final score lies in `[1, 4]`, the risk level is Low,
and no alert is generated. -/
theorem no_rule_fired_low_no_alert (st : DashState) (tx : Txn)
    (now : Int) (env : RandEnv) (hj1 : -5 ≤ env.jitter)
    (hj2 : env.jitter < 5)
    (hrf : (analyzeTransaction st tx now env).2.riskFactors = [])
    (hpat : (analyzeTransaction st tx now env).2.patterns = []) :
    (1 ≤ (analyzeTransaction st tx now env).2.riskScore
      ∧ (analyzeTransaction st tx now env).2.riskScore ≤ 4)
    ∧ (analyzeTransaction st tx now env).2.riskLevel = "Low"
    ∧ (analyzeTransaction st tx now env).1.alerts = st.alerts := by
  have hrf2 : ruleFactors st.transactions tx now env.layering env.smurfing
      = [] := hrf
  unfold ruleFactors at hrf2
  simp only [List.append_eq_nil] at hrf2
  obtain ⟨⟨⟨⟨⟨⟨⟨⟨e1, e2⟩, e3⟩, e4⟩, e5⟩, e6⟩, e7⟩, e8⟩, e9⟩ := hrf2
  have c1 : ¬ (condLarge tx = true) := by
    intro hc; rw [if_pos hc] at e1; exact absurd e1 (by simp)
  have c2 : ¬ (condRound tx = true) := by
    intro hc; rw [if_pos hc] at e2; exact absurd e2 (by simp)
  have c3 : ¬ (condStructuring tx = true) := by
    intro hc; rw [if_pos hc] at e3; exact absurd e3 (by simp)
  have c4 : ¬ (condGeo tx = true) := by
    intro hc; rw [if_pos hc] at e4; exact absurd e4 (by simp)
  have c5 : ¬ (condCash tx = true) := by
    intro hc; rw [if_pos hc] at e5; exact absurd e5 (by simp)
  have c6 : ¬ (condCrypto tx = true) := by
    intro hc; rw [if_pos hc] at e6; exact absurd e6 (by simp)
  have c7 : ¬ (checkVelocity st.transactions tx now = true) := by
    intro hc; rw [if_pos hc] at e7; exact absurd e7 (by simp)
  have c8 : ¬ (env.layering = true) := by
    intro hc; rw [if_pos hc] at e8; exact absurd e8 (by simp)
  have c9 : ¬ (env.smurfing = true) := by
    intro hc; rw [if_pos hc] at e9; exact absurd e9 (by simp)
  have hsum : ruleScore st.transactions tx now env.layering env.smurfing
      = 0 := by
    unfold ruleScore
    rw [if_neg c1, if_neg c2, if_neg c3, if_neg c4, if_neg c5, if_neg c6,
      if_neg c7, if_neg c8, if_neg c9]
    norm_num
  have hscore : (analyzeTransaction st tx now env).2.riskScore
      = clampScore 0 env.jitter := by
    rw [analyzeTransaction_riskScore, hsum]
  have hfl : ⌊env.jitter⌋ ≤ 4 := by
    have h5 : ⌊env.jitter⌋ < 5 := by
      rw [Int.floor_lt]
      exact_mod_cast hj2
    omega
  have hzero : ((0 : Int) : ℚ) + env.jitter = env.jitter := by
    rw [Int.cast_zero, zero_add]
  have hcl : 1 ≤ clampScore 0 env.jitter ∧ clampScore 0 env.jitter ≤ 4 := by
    unfold clampScore
    rw [hzero]
    omega
  refine ⟨by rw [hscore]; exact hcl, ?_, ?_⟩
  · rw [analyzeTransaction_riskLevel, hscore]
    unfold riskLevelOf
    rw [if_neg (by omega), if_neg (by omega), if_neg (by omega)]
  · exact analyzeTransaction_alerts_of_low st tx now env (by rw [hsum]; omega)

set_option maxRecDepth 100000 in
/-- Witness for C10 at a concrete benign transaction with zero
jitter. -/
theorem no_rule_fired_low_no_alert_witness :
    ((-5 : ℚ) ≤ env0.jitter ∧ env0.jitter < 5
      ∧ (analyzeTransaction dashInit (plainTx 0) 0 env0).2.riskFactors = []
      ∧ (analyzeTransaction dashInit (plainTx 0) 0 env0).2.patterns = [])
    ∧ ((1 ≤ (analyzeTransaction dashInit (plainTx 0) 0 env0).2.riskScore
        ∧ (analyzeTransaction dashInit (plainTx 0) 0 env0).2.riskScore ≤ 4)
      ∧ (analyzeTransaction dashInit (plainTx 0) 0 env0).2.riskLevel = "Low"
      ∧ (analyzeTransaction dashInit (plainTx 0) 0 env0).1.alerts
          = dashInit.alerts) :=
  ⟨⟨by norm_num [env0], by norm_num [env0], by with_unfolding_all decide,
    by with_unfolding_all decide⟩,
   no_rule_fired_low_no_alert dashInit (plainTx 0) 0 env0
     (by norm_num [env0]) (by norm_num [env0])
     (by with_unfolding_all decide) (by with_unfolding_all decide)⟩

end AML
